import Mathlib

/-!
Verification of the sentinel-app backend scaffold
(src/server/main.py and src/server/app/api/routes_auth.py).

The Python sources declare a SQLite engine, an idempotent schema
initializer, a per-request scoped session dependency, an empty auth
route group mounted under the auth path, and a single root endpoint.
The definitions below embed those declarations; the parts of the host
framework (request dispatch, startup-hook sequencing, dependency
consumption) that the repository only configures are modelled from the
specification and marked as such in their doc comments.
-/

namespace Sentinel

/-- HTTP request methods relevant to the application's dispatch. -/
inductive Method where
  | GET
  | POST
  | PUT
  | DELETE
  | PATCH
deriving DecidableEq, Repr

/-- Identifier of a request handler defined in src/server/main.py.
The application defines a single handler, `root`. -/
inductive HandlerId where
  | root
deriving DecidableEq, Repr

/-- A registered route: method, full path, and the handler it dispatches to. -/
structure Route where
  method : Method
  path : String
  handler : HandlerId
deriving DecidableEq, Repr

/-- An inbound HTTP request: method, path, headers and body. -/
structure Request where
  method : Method
  path : String
  headers : List (String × String)
  body : String
deriving DecidableEq, Repr

/-- An HTTP response: status code and a flat JSON-object body given as
key-value pairs of strings. -/
structure Response where
  status : Nat
  body : List (String × String)
deriving DecidableEq, Repr

/-- Engine configuration built by `create_engine` in src/server/main.py:
the connection URL and the `check_same_thread` connect argument. -/
structure EngineConfig where
  url : String
  check_same_thread : Bool
deriving DecidableEq, Repr

def sqlite_file_name : String := "database.db"

def sqlite_url : String := "sqlite:///" ++ sqlite_file_name

/-- `engine = create_engine(sqlite_url, connect_args=connect_args)`. -/
def engine : EngineConfig :=
  { url := sqlite_url, check_same_thread := false }

/-- On-disk database state: `none` means the database file does not exist;
`some ts` means the file exists and contains exactly the tables `ts`. -/
abbrev DiskState := Option (List String)

/-- The table names declared in `SQLModel.metadata`. The repository
declares no SQLModel table models, so this set is empty. -/
def declaredTables : List String := []

/-- `SQLModel.metadata.create_all(engine)` against a SQLite file engine:
ensure the database file exists and create each declared table that is not
already present; existing tables are left untouched. -/
def create_all (declared : List String) (disk : DiskState) : DiskState :=
  let ts := disk.getD []
  some (ts ++ declared.filter (fun d => !ts.contains d))

/-- `create_db_and_tables()` from src/server/main.py. -/
def create_db_and_tables (disk : DiskState) : DiskState :=
  create_all declaredTables disk

/-- Modelled from the spec: the external storage environment — whether the
storage backend is reachable and the database file path is writable. This
environment is not part of the repository's sources. -/
structure Env where
  writable : Bool
deriving DecidableEq, Repr

/-- Failure raised when the storage backend is unreachable or the database
file path is not writable. -/
inductive InitError where
  | storageUnavailable
deriving DecidableEq, Repr

/-- Modelled from the spec: running `create_db_and_tables` against the real
storage backend fails when the backend is unreachable or the file path is
not writable, and otherwise performs the schema creation. -/
def create_db_and_tablesRun (env : Env) (disk : DiskState) :
    Except InitError DiskState :=
  if env.writable then Except.ok (create_db_and_tables disk)
  else Except.error InitError.storageUnavailable

/-- An APIRouter as configured in src/server/app/api/routes_auth.py: the
path under which the group is mounted, descriptive tags, response metadata
(status code and description) documenting default responses, and the
group's registered routes. -/
structure APIRouter where
  mountPath : String
  tags : List String
  responses : List (Nat × String)
  routes : List Route
deriving DecidableEq, Repr

/-- `router = APIRouter(...)` from routes_auth.py: mounted under the auth
path, tagged, carrying 404 not-found response metadata, and containing
zero registered routes. -/
def router : APIRouter :=
  { mountPath := "/auth"
    tags := ["auth"]
    responses := [(404, "Not found")]
    routes := [] }

/-- `app.include_router(r)`: append each of the group's routes to the route
table, its path prefixed by the group's mount path. -/
def include_router (table : List Route) (r : APIRouter) : List Route :=
  table ++ r.routes.map (fun rt => { rt with path := r.mountPath ++ rt.path })

/-- The application's route table: the auth router is mounted first, then
the root route (GET on the root path) is registered. -/
def appRoutes : List Route :=
  include_router [] router ++ [{ method := .GET, path := "/", handler := .root }]

/-- The body returned by the root handler in src/server/main.py: the object
mapping the message key to the hello-world string. -/
def rootBody : List (String × String) := [("message", "Hello World")]

/-- Process-wide application state: the on-disk database, the engine
configuration and the route table. -/
structure AppState where
  disk : DiskState
  engineCfg : EngineConfig
  routes : List Route
deriving DecidableEq, Repr

/-- Run a handler. The only handler, `root`, reads nothing and returns
status 200 with the fixed body, leaving the state untouched. -/
def runHandler : HandlerId → AppState → Response × AppState
  | .root, s => ({ status := 200, body := rootBody }, s)

/-- Modelled from the spec: the standard not-found body of the host
framework, documented by the 404 description metadata declared for
undefined routes. -/
def notFoundBody : List (String × String) := [("description", "Not found")]

/-- Modelled from the spec: the host framework dispatches an inbound
request to the first route whose method and path match; an unmatched
route is surfaced as a 404 not-found response. Headers and body play no
role in matching. -/
def handleRequest (s : AppState) (req : Request) : Response × AppState :=
  match s.routes.find? (fun rt => rt.method == req.method && rt.path == req.path) with
  | some rt => runHandler rt.handler s
  | none => ({ status := 404, body := notFoundBody }, s)

/-- Lifecycle phases of the application: uninitialized before the startup
hook, serving after it succeeds, failed (terminal) if it fails. -/
inductive Phase where
  | uninitialized
  | serving
  | failed
deriving DecidableEq, Repr

/-- Observable events of one process execution: the startup hook running
(with its success flag), and a request being handled, recording the disk
state the handler observed. -/
inductive Event where
  | startupRan (ok : Bool)
  | handled (observedDisk : DiskState) (req : Request) (resp : Response)
deriving DecidableEq, Repr

/-- Serve a list of requests in order, threading the application state and
recording one handled event per request. -/
def serveAll : AppState → List Request → AppState × List Event
  | s, [] => (s, [])
  | s, r :: rs =>
      let p := handleRequest s r
      let q := serveAll p.2 rs
      (q.1, Event.handled s.disk r p.1 :: q.2)

/-- `on_startup()` from src/server/main.py: the startup hook invokes
`create_db_and_tables` (its environment-aware run). -/
def on_startup (env : Env) (disk : DiskState) : Except InitError DiskState :=
  create_db_and_tablesRun env disk

/-- The application state the process serves from, for a given disk state:
the wired engine configuration and the registered route table. -/
def initState (disk1 : DiskState) : AppState :=
  { disk := disk1, engineCfg := engine, routes := appRoutes }

/-- Modelled from the spec: the event trace of one process execution. The
startup hook runs exactly once, before any request is accepted; if it
fails the process aborts without serving; otherwise every request is
served against the initialized state. -/
def appTrace (env : Env) (disk : DiskState) (reqs : List Request) : List Event :=
  match on_startup env disk with
  | Except.error _ => [Event.startupRan false]
  | Except.ok disk1 =>
      Event.startupRan true :: (serveAll (initState disk1) reqs).2

/-- Project a handled event to its request-response pair. -/
def responseOf : Event → Option (Request × Response)
  | .handled _ r p => some (r, p)
  | .startupRan _ => none

/-- Modelled from the spec: one process execution returning the final
phase, the final application state, and the request-response log. -/
def runApp (env : Env) (disk : DiskState) (reqs : List Request) :
    Phase × AppState × List (Request × Response) :=
  match on_startup env disk with
  | Except.error _ => (Phase.failed, initState disk, [])
  | Except.ok disk1 =>
      let q := serveAll (initState disk1) reqs
      (Phase.serving, q.1, q.2.filterMap responseOf)

/-- A live database session handle bound to the engine. -/
structure DBSession where
  engineCfg : EngineConfig
deriving DecidableEq, Repr

/-- Exit paths of a request handler body: normal return, raised error, or
cancellation. -/
inductive Outcome (α : Type) where
  | ok (a : α)
  | error (msg : String)
  | cancelled
deriving DecidableEq, Repr

/-- Connection bookkeeping: how many sessions are currently open. -/
structure SessionCtx where
  openSessions : Nat
deriving DecidableEq, Repr

/-- `get_session()` from src/server/main.py, as consumed by the framework's
dependency injection (the consumption is modelled from the spec): a session
bound to the engine is opened inside a with-block and yielded to the
handler; the with-block releases it on every exit path of the handler. -/
def get_session {α : Type} (ctx : SessionCtx) (handler : DBSession → Outcome α) :
    Outcome α × SessionCtx :=
  let opened : SessionCtx := { openSessions := ctx.openSessions + 1 }
  let out := handler { engineCfg := engine }
  (out, { openSessions := opened.openSessions - 1 })

/-! ### Helper lemmas shared by the claim theorems -/

/-- The application's route table is the single root route. -/
theorem appRoutes_eq :
    appRoutes = [{ method := .GET, path := "/", handler := .root }] := rfl

/-- Dispatching any request leaves the application state unchanged. -/
theorem handleRequest_state (s : AppState) (req : Request) :
    (handleRequest s req).2 = s := by
  unfold handleRequest
  cases h : s.routes.find? (fun rt => rt.method == req.method && rt.path == req.path) with
  | none => rfl
  | some rt =>
      cases rt.handler
      rfl

/-- Under the application's route table, a GET request for the root path
dispatches to the root handler and yields the fixed 200 response. -/
theorem handleRequest_root (s : AppState) (req : Request)
    (hroutes : s.routes = appRoutes) (hm : req.method = Method.GET)
    (hp : req.path = "/") :
    handleRequest s req = ({ status := 200, body := rootBody }, s) := by
  unfold handleRequest
  rw [hroutes, appRoutes_eq]
  simp [List.find?, hm, hp, runHandler]

/-- Under the application's route table, any request whose path is not the
root path misses every route and yields the 404 not-found response. -/
theorem handleRequest_miss (s : AppState) (req : Request)
    (hroutes : s.routes = appRoutes) (hp : req.path ≠ "/") :
    handleRequest s req = ({ status := 404, body := notFoundBody }, s) := by
  unfold handleRequest
  rw [hroutes, appRoutes_eq]
  have hb : ("/" == req.path) = false := by
    simp [hp.symm]
  simp [List.find?, hb]

/-- Serving a request list neither changes the state nor emits anything but
handled events, each observing the initial disk state. -/
theorem serveAll_spec (s : AppState) (reqs : List Request) :
    (serveAll s reqs).1 = s ∧
      ∀ e ∈ (serveAll s reqs).2, ∃ r p, e = Event.handled s.disk r p := by
  induction reqs generalizing s with
  | nil => exact ⟨rfl, by intro e he; cases he⟩
  | cons r rs ih =>
      have hstate : (handleRequest s r).2 = s := handleRequest_state s r
      have ih2 := ih (handleRequest s r).2
      constructor
      · show (serveAll (handleRequest s r).2 rs).1 = s
        rw [ih2.1, hstate]
      · intro e he
        have he' : e = Event.handled s.disk r (handleRequest s r).1 ∨
            e ∈ (serveAll (handleRequest s r).2 rs).2 := List.mem_cons.mp he
        rcases he' with he' | he'
        · exact ⟨r, (handleRequest s r).1, he'⟩
        · rcases ih2.2 e he' with ⟨r', p', hep⟩
          refine ⟨r', p', ?_⟩
          rw [hep, hstate]

/-- In a writable environment the execution trace is the successful startup
event followed by the events of serving against the initialized state. -/
theorem appTrace_ok (env : Env) (disk : DiskState) (reqs : List Request)
    (h : env.writable = true) :
    appTrace env disk reqs =
      Event.startupRan true ::
        (serveAll (initState (create_db_and_tables disk)) reqs).2 := by
  unfold appTrace on_startup create_db_and_tablesRun
  rw [h]
  rfl

/-- In an unwritable environment the execution trace is the single failed
startup event. -/
theorem appTrace_err (env : Env) (disk : DiskState) (reqs : List Request)
    (h : env.writable = false) :
    appTrace env disk reqs = [Event.startupRan false] := by
  unfold appTrace on_startup create_db_and_tablesRun
  rw [h]
  rfl

/-- In an unwritable environment the process run ends failed with an empty
response log. -/
theorem runApp_err (env : Env) (disk : DiskState) (reqs : List Request)
    (h : env.writable = false) :
    runApp env disk reqs = (Phase.failed, initState disk, []) := by
  unfold runApp on_startup create_db_and_tablesRun
  rw [h]
  rfl

/-- `create_all` is idempotent for every declared table set. -/
theorem create_all_idem (declared : List String) (disk : DiskState) :
    create_all declared (create_all declared disk) = create_all declared disk := by
  unfold create_all
  simp only [Option.getD_some]
  have hnil :
      declared.filter
        (fun d => !(disk.getD [] ++
          declared.filter (fun d => !(disk.getD []).contains d)).contains d) = [] := by
    rw [List.filter_eq_nil_iff]
    intro d hd
    have hdmem :
        d ∈ disk.getD [] ++ declared.filter (fun d => !(disk.getD []).contains d) := by
      rw [List.mem_append]
      by_cases hmem : d ∈ disk.getD []
      · exact Or.inl hmem
      · refine Or.inr (List.mem_filter.mpr ⟨hd, ?_⟩)
        simp [List.contains, hmem]
    intro hcontra
    simp only [Bool.not_eq_true'] at hcontra
    simp only [List.contains, List.elem_eq_mem, decide_eq_false_iff_not] at hcontra
    simp only [List.contains, List.elem_eq_mem] at hdmem
    exact hcontra hdmem
  rw [hnil, List.append_nil]

/-! ### Claim theorems -/

/-- C1: every HTTP request with method GET and root path, regardless of the
headers and body supplied, is answered by the application with status 200
and exactly the hello-world body. -/
theorem C1_root_get_fixed (s : AppState) (req : Request)
    (hroutes : s.routes = appRoutes) (hm : req.method = Method.GET)
    (hp : req.path = "/") :
    (handleRequest s req).1 = { status := 200, body := rootBody } := by
  rw [handleRequest_root s req hroutes hm hp]

/-- Witness for C1 on a concrete request carrying headers and a body. -/
theorem C1_root_get_fixed_witness :
    (handleRequest { disk := none, engineCfg := engine, routes := appRoutes }
        { method := .GET, path := "/",
          headers := [("X-Test", "1")], body := "ignored" }).1 =
      { status := 200, body := rootBody } :=
  C1_root_get_fixed _ _ rfl rfl rfl

/-- C2: any request whose path begins with the auth mount path followed by
a further segment is answered 404 with the not-found body, and the auth
route group declares exactly the 404 not-found description metadata for
its undefined routes. -/
theorem C2_auth_unmatched_404 (s : AppState) (req : Request)
    (hroutes : s.routes = appRoutes)
    (hp : ∃ rest, req.path = "/auth/" ++ rest) :
    (handleRequest s req).1 = { status := 404, body := notFoundBody } ∧
      router.responses = [(404, "Not found")] := by
  rcases hp with ⟨rest, hrest⟩
  have hne : req.path ≠ "/" := by
    rw [hrest]
    intro h
    have hlen := congrArg String.length h
    rw [String.length_append] at hlen
    have h6 : String.length "/auth/" = 6 := rfl
    have h1 : String.length "/" = 1 := rfl
    rw [h6, h1] at hlen
    omega
  exact ⟨by rw [handleRequest_miss s req hroutes hne], rfl⟩

/-- Witness for C2 on a concrete auth-prefixed request. -/
theorem C2_auth_unmatched_404_witness :
    (handleRequest { disk := none, engineCfg := engine, routes := appRoutes }
        { method := .POST, path := "/auth/login", headers := [], body := "" }).1 =
      { status := 404, body := notFoundBody } ∧
      router.responses = [(404, "Not found")] :=
  C2_auth_unmatched_404 _ _ rfl ⟨"login", rfl⟩

/-- C3: schema initialization is idempotent — from any starting disk state,
in a writable environment, the first call succeeds and a second call
succeeds returning the very same schema state (no duplicate objects). -/
theorem C3_create_db_idempotent (env : Env) (disk : DiskState)
    (h : env.writable = true) :
    ∃ d1, create_db_and_tablesRun env disk = Except.ok d1 ∧
      create_db_and_tablesRun env d1 = Except.ok d1 := by
  refine ⟨create_db_and_tables disk, ?_, ?_⟩
  · simp [create_db_and_tablesRun, h]
  · simp [create_db_and_tablesRun, h, create_db_and_tables,
      create_all_idem declaredTables disk]

/-- Witness for C3 starting from a disk that already has a table. -/
theorem C3_create_db_idempotent_witness :
    ∃ d1, create_db_and_tablesRun { writable := true } (some ["t"]) = Except.ok d1 ∧
      create_db_and_tablesRun { writable := true } d1 = Except.ok d1 :=
  C3_create_db_idempotent { writable := true } (some ["t"]) rfl

/-- C4: in every execution the first trace event is the startup hook — so
it runs exactly once, strictly before any request is handled — every later
event is a handled request, and each handled request observed the
schema-initialized disk state. -/
theorem C4_startup_before_requests (env : Env) (disk : DiskState)
    (reqs : List Request) :
    ∃ ok tl, appTrace env disk reqs = Event.startupRan ok :: tl ∧
      (∀ e ∈ tl, ∀ b, e ≠ Event.startupRan b) ∧
      (∀ e ∈ tl, ∃ r p, e = Event.handled (create_db_and_tables disk) r p) := by
  cases hw : env.writable with
  | true =>
      refine ⟨true, (serveAll (initState (create_db_and_tables disk)) reqs).2,
        appTrace_ok env disk reqs hw, ?_, ?_⟩
      · intro e he b
        rcases (serveAll_spec _ reqs).2 e he with ⟨r, p, hep⟩
        rw [hep]
        intro hcontra
        exact Event.noConfusion hcontra
      · intro e he
        exact (serveAll_spec _ reqs).2 e he
  | false =>
      refine ⟨false, [], appTrace_err env disk reqs hw, ?_, ?_⟩
      · intro e he; cases he
      · intro e he; cases he

/-- C5: whatever the handler does with the yielded session — normal return,
raised error, or cancellation — `get_session` releases it on exit: the open
session count after the request equals the count before, so no session
outlives the request that created it. -/
theorem C5_session_released (ctx : SessionCtx)
    (handler : DBSession → Outcome Response) :
    (get_session ctx handler).2 = ctx := by
  cases ctx
  simp [get_session]

/-- C6: if schema initialization fails, startup aborts: the process ends in
the failed phase, serves no request, and the trace records a single failed
startup attempt with no retry. -/
theorem C6_startup_failure_aborts (env : Env) (disk : DiskState)
    (reqs : List Request) (h : env.writable = false) :
    (runApp env disk reqs).1 = Phase.failed ∧
      (runApp env disk reqs).2.2 = [] ∧
      appTrace env disk reqs = [Event.startupRan false] := by
  rw [runApp_err env disk reqs h, appTrace_err env disk reqs h]
  exact ⟨rfl, rfl, rfl⟩

/-- Witness for C6: an unwritable environment with a pending request. -/
theorem C6_startup_failure_aborts_witness :
    (runApp { writable := false } none
        [{ method := .GET, path := "/", headers := [], body := "" }]).1 =
        Phase.failed ∧
      (runApp { writable := false } none
        [{ method := .GET, path := "/", headers := [], body := "" }]).2.2 = [] ∧
      appTrace { writable := false } none
        [{ method := .GET, path := "/", headers := [], body := "" }] =
        [Event.startupRan false] :=
  C6_startup_failure_aborts { writable := false } none
    [{ method := .GET, path := "/", headers := [], body := "" }] rfl

/-- The request issued in the fresh-start scenario of C7. -/
def freshRequest : Request :=
  { method := .GET, path := "/", headers := [], body := "" }

/-- C7: starting fresh with no database file and issuing a GET of the root
path yields the fixed 200 payload, and afterwards the database file exists
on disk with an empty (no-table) schema. -/
theorem C7_fresh_start_scenario :
    runApp { writable := true } none [freshRequest] =
      (Phase.serving,
        { disk := some [], engineCfg := engine, routes := appRoutes },
        [(freshRequest, { status := 200, body := rootBody })]) := by
  rfl

/-- C8: handling any request — in particular a GET of the root path — has
no side effects: the whole application state (disk schema and contents,
engine configuration, route table) is identical before and after. -/
theorem C8_root_no_side_effects (s : AppState) (req : Request) :
    (handleRequest s req).2 = s :=
  handleRequest_state s req

/-- C9: the route table contains exactly one endpoint (the mounted auth
router contributes zero routes), and every request whose path is not the
root path — not only auth-prefixed paths — is answered 404. -/
theorem C9_single_route_404 (s : AppState) (req : Request)
    (hroutes : s.routes = appRoutes) (hp : req.path ≠ "/") :
    appRoutes.length = 1 ∧ router.routes.length = 0 ∧
      (handleRequest s req).1.status = 404 := by
  refine ⟨rfl, rfl, ?_⟩
  rw [handleRequest_miss s req hroutes hp]

/-- Witness for C9 on a concrete non-root, non-auth path. -/
theorem C9_single_route_404_witness :
    appRoutes.length = 1 ∧ router.routes.length = 0 ∧
      (handleRequest { disk := none, engineCfg := engine, routes := appRoutes }
        { method := .GET, path := "/items", headers := [], body := "" }).1.status =
        404 :=
  C9_single_route_404 _ _ rfl (by decide)

/-- C10: the root handler is deterministic and independent of database and
engine state: two invocations under any two application states return the
same value, the fixed hello-world response. -/
theorem C10_root_deterministic (s1 s2 : AppState) (r1 r2 : Request)
    (h1 : s1.routes = appRoutes) (h2 : s2.routes = appRoutes)
    (hm1 : r1.method = Method.GET) (hp1 : r1.path = "/")
    (hm2 : r2.method = Method.GET) (hp2 : r2.path = "/") :
    (handleRequest s1 r1).1 = (handleRequest s2 r2).1 ∧
      (handleRequest s1 r1).1 = { status := 200, body := rootBody } := by
  have e1 := handleRequest_root s1 r1 h1 hm1 hp1
  have e2 := handleRequest_root s2 r2 h2 hm2 hp2
  rw [e1, e2]
  exact ⟨rfl, rfl⟩

/-- Witness for C10 with two different disk and engine-independent states. -/
theorem C10_root_deterministic_witness :
    (handleRequest { disk := none, engineCfg := engine, routes := appRoutes }
        { method := .GET, path := "/", headers := [], body := "" }).1 =
      (handleRequest { disk := some ["users"], engineCfg := engine, routes := appRoutes }
        { method := .GET, path := "/", headers := [("A", "b")], body := "x" }).1 ∧
      (handleRequest { disk := none, engineCfg := engine, routes := appRoutes }
        { method := .GET, path := "/", headers := [], body := "" }).1 =
      { status := 200, body := rootBody } :=
  C10_root_deterministic _ _ _ _ rfl rfl rfl rfl rfl rfl

end Sentinel
